import Mathlib

/-!
Verification of the sentiment-feedback application
(`AI-REACT-SCREENING1`): the sentiment classification pipeline, the
aggregation layer, and the frontend form/display logic.

Texts are modelled as `List Char` (sequences of code units), so that
every operation is a structurally recursive, fully evaluable function.
The frontend React components (`AdminDashboard.jsx`, `Feedback.jsx`,
`Login.jsx`, `Signup.jsx`) are embedded directly from the source.  The
backend pipeline (vectorizer, multinomial naive-Bayes classifier,
summary endpoint) is not part of the available sources, so those
components are modelled from the specification text, as marked on each
definition.
-/

/-- The closed sentiment label domain used throughout the system. -/
inductive SentimentLabel where
  | Positive
  | Negative
  | Neutral
deriving DecidableEq, Repr, Fintype

/-- Splits a character sequence into maximal runs of alphanumeric
characters, dropping everything else; `acc` holds the (reversed)
current run. -/
def tokenizeAux : List Char → List Char → List (List Char)
  | [], acc => if acc = [] then [] else [acc.reverse]
  | c :: rest, acc =>
    if c.isAlphanum then tokenizeAux rest (c :: acc)
    else if acc = [] then tokenizeAux rest []
    else acc.reverse :: tokenizeAux rest []

/-- Modelled from the spec: tokenization lowercases the text, splits on
non-alphanumeric boundaries and discards empty tokens (spec sections
4.1 and glossary; the backend `sentiment_model.py` is not in the
available sources). -/
def tokenize (cs : List Char) : List (List Char) :=
  tokenizeAux (cs.map Char.toLower) []

/-- Modelled from the spec: `transform` produces a vector of length
`|vocabulary|` whose entry `i` counts occurrences of the vocabulary
token at index `i`; unknown tokens are silently ignored (spec
section 4.1).  The vocabulary is the ordered list of known tokens,
index = list position. -/
def transform (vocab : List (List Char)) (text : List Char) : List Nat :=
  vocab.map (fun v => (tokenize text).count v)

/-- Modelled from the spec: the trained classifier state holds the
smoothed log-probability of each class and of each vocabulary token
given each class, all computed once during training and read-only
thereafter (spec section 3, ClassPriors / ClassLikelihoods).  Log-space
values are represented as rationals. -/
structure Model where
  logPrior : SentimentLabel → ℚ
  logLik : SentimentLabel → Nat → ℚ

/-- Dot product of a feature vector against the log-likelihoods of a
class, starting at vocabulary index `i`. -/
def dotLik (m : Model) (c : SentimentLabel) : Nat → List Nat → ℚ
  | _, [] => 0
  | i, n :: rest => (n : ℚ) * m.logLik c i + dotLik m c (i + 1) rest

/-- Modelled from the spec: `score(c) = log P(c) + Σ_t count_t × log P(t|c)`
(spec section 4.2). -/
def score (m : Model) (vec : List Nat) (c : SentimentLabel) : ℚ :=
  m.logPrior c + dotLik m c 0 vec

/-- Modelled from the spec: the fixed class precedence order
(Positive, Negative, Neutral) used for deterministic tie-breaking
(spec section 4.2). -/
def labelOrder : List SentimentLabel :=
  [SentimentLabel.Positive, SentimentLabel.Negative, SentimentLabel.Neutral]

/-- Modelled from the spec: `predict` returns the class with the maximum
score, keeping the earlier class in the precedence order on an exact
tie (spec section 4.2). -/
def predict (m : Model) (vec : List Nat) : SentimentLabel :=
  labelOrder.foldl
    (fun best c => if score m vec c > score m vec best then c else best)
    SentimentLabel.Positive

/-- Position of a label in the fixed precedence order. -/
def precIdx : SentimentLabel → Nat
  | SentimentLabel.Positive => 0
  | SentimentLabel.Negative => 1
  | SentimentLabel.Neutral => 2

/-- Modelled from the spec: `classify` transforms the text through the
held vocabulary and returns the classifier prediction (spec
section 4.3). -/
def classify (vocab : List (List Char)) (m : Model) (text : List Char) :
    SentimentLabel :=
  predict m (transform vocab text)

/-- Argmax of the class priors alone, with the same precedence
tie-breaking as `predict`. -/
def priorArgmax (m : Model) : SentimentLabel :=
  labelOrder.foldl
    (fun best c => if m.logPrior c > m.logPrior best then c else best)
    SentimentLabel.Positive

/-- Modelled from the spec: the sum over all training examples of class
`c` of the count of token `i` (spec section 4.2, numerator of the
smoothed likelihood before adding one). -/
def labelTokenCount (examples : List (List Nat × SentimentLabel))
    (c : SentimentLabel) (i : Nat) : Nat :=
  ((examples.filter (fun e => e.2 == c)).map (fun e => e.1.getD i 0)).sum

/-- Modelled from the spec: the total token count across all examples of
class `c`, over a vocabulary of size `V` (spec section 4.2, denominator
of the smoothed likelihood before adding `|vocabulary|`). -/
def labelTotalTokenCount (examples : List (List Nat × SentimentLabel))
    (V : Nat) (c : SentimentLabel) : Nat :=
  ((List.range V).map (labelTokenCount examples c)).sum

/-- Modelled from the spec: the add-one (Laplace) smoothed likelihood
`P(t|c) = (count(t, c) + 1) / (totalTokens(c) + |vocabulary|)`
(spec section 4.2). -/
def likelihood (examples : List (List Nat × SentimentLabel))
    (V : Nat) (c : SentimentLabel) (i : Nat) : ℚ :=
  ((labelTokenCount examples c i : ℚ) + 1) /
    ((labelTotalTokenCount examples V c : ℚ) + (V : ℚ))

/-- Modelled from the spec: the Sentiment Service state owning the
vocabulary and trained classifier parameters (spec section 4.3). -/
structure ServiceState where
  vocab : List (List Char)
  model : Model

/-- Modelled from the spec: the service entry point in state-passing
form; the returned state is the service state after the call (spec
section 4.3, purity of `classify` with respect to service state). -/
def serviceClassify (st : ServiceState) (text : List Char) :
    SentimentLabel × ServiceState :=
  (classify st.vocab st.model text, st)

/-- The aggregate summary record; mirrors the `summary` object shape
consumed by `AdminDashboard.jsx` (`{Positive, Negative, Neutral,
Total}`). -/
structure AggregateSummary where
  Positive : Nat
  Negative : Nat
  Neutral : Nat
  Total : Nat
deriving DecidableEq, Repr

/-- Modelled from the spec: `summarize` counts occurrences of each of
the three labels, with `Total` the length of the input sequence (spec
section 4.4; the backend summary endpoint is not in the available
sources). -/
def summarize (labels : List SentimentLabel) : AggregateSummary :=
  { Positive := labels.count SentimentLabel.Positive
    Negative := labels.count SentimentLabel.Negative
    Neutral := labels.count SentimentLabel.Neutral
    Total := labels.length }

/-- Embeds `Number.prototype.toFixed(1)` over exact rationals: the
displayed one-decimal value, with ties rounded toward the larger
candidate, as the ECMAScript `toFixed` algorithm prescribes. -/
def toFixed1 (q : ℚ) : ℚ := (round (q * 10) : ℚ) / 10

/-- From `AdminDashboard.jsx` line 326:
`((summary.Positive / summary.Total) * 100).toFixed(1)`. -/
def displayedPctPositive (s : AggregateSummary) : ℚ :=
  toFixed1 ((s.Positive : ℚ) / (s.Total : ℚ) * 100)

/-- From `AdminDashboard.jsx` line 338:
`((summary.Negative / summary.Total) * 100).toFixed(1)`. -/
def displayedPctNegative (s : AggregateSummary) : ℚ :=
  toFixed1 ((s.Negative : ℚ) / (s.Total : ℚ) * 100)

/-- From `AdminDashboard.jsx` line 350:
`((summary.Neutral / summary.Total) * 100).toFixed(1)`. -/
def displayedPctNeutral (s : AggregateSummary) : ℚ :=
  toFixed1 ((s.Neutral : ℚ) / (s.Total : ℚ) * 100)

/-- Stated from the spec's words, for comparison with the code-derived
display functions: percentage per class = `count / Total × 100`,
reported with one decimal place of precision (spec section 4.4). -/
def specPct (count total : Nat) : ℚ :=
  (round ((count : ℚ) / (total : ℚ) * 100 * 10) : ℚ) / 10

/-- From `AdminDashboard.jsx` line 316: the percentage block renders
only under the guard `summary.Total > 0 && (...)`. -/
def showPercentages (s : AggregateSummary) : Bool := decide (0 < s.Total)

/-- From `AdminDashboard.jsx` lines 291-295: `feedback.comment.length > 100
? feedback.comment.substring(0, 100) + ... : feedback.comment`. -/
def displayComment (c : List Char) : List Char :=
  if c.length > 100 then c.take 100 ++ ['.', '.', '.'] else c

/-- JavaScript `String.prototype.trim()`: strips whitespace from both
ends. -/
def jsTrim (cs : List Char) : List Char :=
  ((cs.dropWhile Char.isWhitespace).reverse.dropWhile Char.isWhitespace).reverse

/-- JavaScript `String.prototype.toLowerCase()`: lowercases every
character. -/
def jsToLower (cs : List Char) : List Char := cs.map Char.toLower

/-- The `formData` state of `Feedback.jsx`: a star rating (0 when none
selected, 1..5 via `handleRatingClick`) and a comment. -/
structure FeedbackForm where
  rating : Nat
  comment : List Char

/-- The `errors` object built by `validateForm` in `Feedback.jsx`. -/
structure FeedbackErrors where
  ratingError : Option String
  commentError : Option String

/-- From `Feedback.jsx` lines 75-90 (`validateForm`): a rating of 0 and
an empty or shorter-than-5-characters trimmed comment each record a
field error. -/
def validateFeedbackForm (f : FeedbackForm) : FeedbackErrors :=
  { ratingError :=
      if f.rating = 0 then some "Please select a rating" else none
    commentError :=
      if jsTrim f.comment = [] then some "Please enter your feedback"
      else if (jsTrim f.comment).length < 5 then
        some "Feedback must be at least 5 characters"
      else none }

/-- From `Feedback.jsx` line 89: the form is valid when the `errors`
object has no keys. -/
def feedbackFormValid (f : FeedbackForm) : Bool :=
  (validateFeedbackForm f).ratingError.isNone &&
    (validateFeedbackForm f).commentError.isNone

/-- The body of the `submitFeedback` request issued by `Feedback.jsx`
(lines 106-110). -/
structure FeedbackPayload where
  user_id : Nat
  rating : Nat
  comment : List Char
deriving DecidableEq

/-- From `Feedback.jsx` lines 93-110 (`handleSubmit`): if validation
fails nothing is sent, otherwise the request carries the rating and the
trimmed comment. -/
def handleSubmitFeedback (userId : Nat) (f : FeedbackForm) :
    Option FeedbackPayload :=
  if feedbackFormValid f then
    some { user_id := userId, rating := f.rating, comment := jsTrim f.comment }
  else none

/-- The `formData` state of `Login.jsx`. -/
structure LoginForm where
  email : List Char
  password : List Char

/-- The `errors` object built by `validateForm` in `Login.jsx`
(lines 41-56): email required (trimmed nonempty), password required. -/
structure LoginErrors where
  emailError : Option String
  passwordError : Option String

/-- From `Login.jsx` lines 41-56 (`validateForm`). -/
def validateLoginForm (f : LoginForm) : LoginErrors :=
  { emailError := if jsTrim f.email = [] then some "Email is required" else none
    passwordError := if f.password = [] then some "Password is required" else none }

/-- From `Login.jsx` line 55: the form is valid when the `errors` object
has no keys. -/
def loginFormValid (f : LoginForm) : Bool :=
  (validateLoginForm f).emailError.isNone &&
    (validateLoginForm f).passwordError.isNone

/-- The credentials body of the `signin` request (`Login.jsx`
lines 71-74). -/
structure Credentials where
  email : List Char
  password : List Char
deriving DecidableEq

/-- From `Login.jsx` lines 59-74 (`handleSubmit`): if validation fails
nothing is sent, otherwise the request carries
`formData.email.trim().toLowerCase()` and the password. -/
def loginSubmit (f : LoginForm) : Option Credentials :=
  if loginFormValid f then
    some { email := jsToLower (jsTrim f.email), password := f.password }
  else none

/-- Character class `[^\s@]` of the signup email pattern: neither
whitespace nor `@`. -/
def emailAtomChar (c : Char) : Bool := !c.isWhitespace && !(c = '@')

/-- From `Signup.jsx` line 55: full-string match of the pattern
`[^\s@]+@[^\s@]+\.[^\s@]+` — a nonempty `@`-free, whitespace-free local
part, one `@`, and a domain of `[^\s@]` characters containing a `.`
that is neither its first nor its last character. -/
def emailRegexTest (cs : List Char) : Bool :=
  let lp := cs.takeWhile (fun c => c ≠ '@')
  match cs.dropWhile (fun c => c ≠ '@') with
  | [] => false
  | _ :: dom =>
    !(lp = []) && lp.all (fun c => !c.isWhitespace) &&
      dom.all emailAtomChar &&
      (List.range dom.length).any
        (fun i => dom.getD i '@' = '.' && decide (1 ≤ i) &&
          decide (i + 1 < dom.length))

/-- The `formData` state of `Signup.jsx`. -/
structure SignupForm where
  name : List Char
  email : List Char
  password : List Char
  confirmPassword : List Char

/-- The `errors` object built by `validateForm` in `Signup.jsx`. -/
structure SignupErrors where
  nameError : Option String
  emailError : Option String
  passwordError : Option String
  confirmPasswordError : Option String

/-- From `Signup.jsx` lines 44-78 (`validateForm`). -/
def validateSignupForm (f : SignupForm) : SignupErrors :=
  { nameError :=
      if jsTrim f.name = [] then some "Name is required"
      else if (jsTrim f.name).length < 2 then
        some "Name must be at least 2 characters"
      else none
    emailError :=
      if jsTrim f.email = [] then some "Email is required"
      else if !emailRegexTest f.email then some "Please enter a valid email"
      else none
    passwordError :=
      if f.password = [] then some "Password is required"
      else if f.password.length < 6 then
        some "Password must be at least 6 characters"
      else none
    confirmPasswordError :=
      if f.confirmPassword = [] then some "Please confirm your password"
      else if !(f.password = f.confirmPassword) then
        some "Passwords do not match"
      else none }

/-- From `Signup.jsx` line 77: the form is valid when the `errors`
object has no keys. -/
def signupFormValid (f : SignupForm) : Bool :=
  (validateSignupForm f).nameError.isNone &&
    (validateSignupForm f).emailError.isNone &&
    (validateSignupForm f).passwordError.isNone &&
    (validateSignupForm f).confirmPasswordError.isNone

/-- The body of the `signup` request (`Signup.jsx` lines 94-98). -/
structure SignupPayload where
  name : List Char
  email : List Char
  password : List Char
deriving DecidableEq

/-- From `Signup.jsx` lines 81-98 (`handleSubmit`): if validation fails
nothing is sent, otherwise the request carries the trimmed name,
`formData.email.trim().toLowerCase()`, and the password. -/
def signupSubmit (f : SignupForm) : Option SignupPayload :=
  if signupFormValid f then
    some { name := jsTrim f.name
           email := jsToLower (jsTrim f.email)
           password := f.password }
  else none

/-- A concrete trained-model value with all log-probabilities zero:
every class score ties, which exercises the tie-break rule. -/
def mDummy : Model :=
  { logPrior := fun _ => 0, logLik := fun _ _ => 0 }

/-! ## Helper lemmas -/

lemma predict_eq (m : Model) (vec : List Nat) :
    predict m vec =
      (if score m vec
            (if score m vec SentimentLabel.Positive <
                score m vec SentimentLabel.Negative
             then SentimentLabel.Negative else SentimentLabel.Positive) <
          score m vec SentimentLabel.Neutral
       then SentimentLabel.Neutral
       else if score m vec SentimentLabel.Positive <
              score m vec SentimentLabel.Negative
            then SentimentLabel.Negative else SentimentLabel.Positive) := by
  simp only [predict, labelOrder, List.foldl, gt_iff_lt, lt_self_iff_false,
    if_false]

lemma predict_isMax (m : Model) (vec : List Nat) (e : SentimentLabel) :
    score m vec e ≤ score m vec (predict m vec) := by
  rw [predict_eq]
  split_ifs with h1 h2 h3 <;> cases e <;> linarith

lemma predict_precFirst (m : Model) (vec : List Nat) (e : SentimentLabel)
    (he : ∀ e2, score m vec e2 ≤ score m vec e) :
    precIdx (predict m vec) ≤ precIdx e := by
  have hp := he SentimentLabel.Positive
  have hn := he SentimentLabel.Negative
  have hu := he SentimentLabel.Neutral
  rw [predict_eq]
  split_ifs with h1 h2 h3 <;> cases e <;>
    simp only [precIdx] <;>
    first
      | omega
      | (exfalso; linarith)

lemma dotLik_replicate_zero (m : Model) (c : SentimentLabel) (n i : Nat) :
    dotLik m c i (List.replicate n 0) = 0 := by
  induction n generalizing i with
  | zero => simp [dotLik]
  | succ k ih => simp [List.replicate, dotLik, ih]

lemma score_replicate_zero (m : Model) (n : Nat) (c : SentimentLabel) :
    score m (List.replicate n 0) c = m.logPrior c := by
  simp [score, dotLik_replicate_zero]

lemma transform_oov (text : List Char) :
    ∀ vocab : List (List Char), (∀ t ∈ tokenize text, t ∉ vocab) →
      transform vocab text = List.replicate vocab.length 0
  | [], _ => rfl
  | v :: vs, h => by
    have hv : (tokenize text).count v = 0 :=
      List.count_eq_zero.mpr (fun hmem => (h v hmem) (List.mem_cons_self v vs))
    have hrest := transform_oov text vs
      (fun t ht hvs => (h t ht) (List.mem_cons_of_mem v hvs))
    simp only [transform, List.map_cons, List.length_cons, List.replicate_succ]
    simp only [transform] at hrest
    rw [hv, hrest]

lemma length_eq_count_sum (labels : List SentimentLabel) :
    labels.length =
      labels.count SentimentLabel.Positive +
        labels.count SentimentLabel.Negative +
        labels.count SentimentLabel.Neutral := by
  induction labels with
  | nil => simp
  | cons h t ih => cases h <;> simp [List.count_cons, ih] <;> omega

/-! ## Claim theorems -/

/-- C3: for every vocabulary, trained model and input text (including
the empty text and arbitrary junk), `classify` returns exactly one of
the three labels Positive, Negative, Neutral; being a total function it
never returns any other value and never raises an error. -/
theorem classify_closed_domain (vocab : List (List Char)) (m : Model)
    (text : List Char) :
    classify vocab m text = SentimentLabel.Positive ∨
    classify vocab m text = SentimentLabel.Negative ∨
    classify vocab m text = SentimentLabel.Neutral := by
  cases h : classify vocab m text <;> simp [h]

/-- C6: for a fixed trained service state, `classify` is deterministic
and pure: a call leaves the vocabulary and trained parameters unchanged,
and a second call on the resulting state returns the same label. -/
theorem classify_deterministic_pure (st : ServiceState) (text : List Char) :
    (serviceClassify st text).2 = st ∧
    (serviceClassify ((serviceClassify st text).2) text).1 =
      (serviceClassify st text).1 :=
  ⟨rfl, rfl⟩

/-- C7: `summarize` returns the occurrence count of each label, `Total`
equals both the input length and the sum of the three counts, and on
`[Positive, Positive, Negative, Neutral]` it yields
`{Positive: 2, Negative: 1, Neutral: 1, Total: 4}` with percentages
50.0, 25.0, 25.0. -/
theorem summarize_counts_correct (labels : List SentimentLabel) :
    (summarize labels).Positive = labels.count SentimentLabel.Positive ∧
    (summarize labels).Negative = labels.count SentimentLabel.Negative ∧
    (summarize labels).Neutral = labels.count SentimentLabel.Neutral ∧
    (summarize labels).Total = labels.length ∧
    (summarize labels).Total =
      (summarize labels).Positive + (summarize labels).Negative +
        (summarize labels).Neutral ∧
    summarize [SentimentLabel.Positive, SentimentLabel.Positive,
        SentimentLabel.Negative, SentimentLabel.Neutral] =
      ⟨2, 1, 1, 4⟩ ∧
    displayedPctPositive (summarize [SentimentLabel.Positive,
        SentimentLabel.Positive, SentimentLabel.Negative,
        SentimentLabel.Neutral]) = 50 ∧
    displayedPctNegative (summarize [SentimentLabel.Positive,
        SentimentLabel.Positive, SentimentLabel.Negative,
        SentimentLabel.Neutral]) = 25 ∧
    displayedPctNeutral (summarize [SentimentLabel.Positive,
        SentimentLabel.Positive, SentimentLabel.Negative,
        SentimentLabel.Neutral]) = 25 := by
  have hs : summarize [SentimentLabel.Positive, SentimentLabel.Positive,
      SentimentLabel.Negative, SentimentLabel.Neutral] =
      (⟨2, 1, 1, 4⟩ : AggregateSummary) := by decide
  refine ⟨rfl, rfl, rfl, rfl, length_eq_count_sum labels, hs, ?_, ?_, ?_⟩ <;>
      rw [hs]
  · simp only [displayedPctPositive, toFixed1]
    norm_num [show ((2 : ℕ) : ℚ) / ((4 : ℕ) : ℚ) * 100 * 10 = 500 from by norm_num]
  · simp only [displayedPctNegative, toFixed1]
    norm_num [show ((1 : ℕ) : ℚ) / ((4 : ℕ) : ℚ) * 100 * 10 = 250 from by norm_num]
  · simp only [displayedPctNeutral, toFixed1]
    norm_num [show ((1 : ℕ) : ℚ) / ((4 : ℕ) : ℚ) * 100 * 10 = 250 from by norm_num]

/-- C2: whenever the aggregate summary has `Total = 0`, the input was
empty so all three counts are zero, and the dashboard guard
`summary.Total > 0` suppresses the percentage block, so no division by
zero is performed. -/
theorem zero_total_guard (labels : List SentimentLabel)
    (h : (summarize labels).Total = 0) :
    summarize labels = ⟨0, 0, 0, 0⟩ ∧
    showPercentages (summarize labels) = false := by
  have hlen : labels.length = 0 := h
  have hnil : labels = [] := List.length_eq_zero.mp hlen
  subst hnil
  exact ⟨rfl, rfl⟩

/-- C2 witness: the empty label sequence has `Total = 0`, carries zero
counts, and the percentage display is suppressed. -/
theorem zero_total_guard_witness :
    summarize [] = ⟨0, 0, 0, 0⟩ ∧ showPercentages (summarize []) = false :=
  zero_total_guard [] rfl

/-- C1: with `Total > 0`, each per-class percentage displayed by the
admin dashboard equals that class's count divided by `Total`, times
100, rounded to one decimal place (times ten it is an integer). -/
theorem pct_display_matches_spec (s : AggregateSummary) (htot : 0 < s.Total) :
    displayedPctPositive s = specPct s.Positive s.Total ∧
    displayedPctNegative s = specPct s.Negative s.Total ∧
    displayedPctNeutral s = specPct s.Neutral s.Total ∧
    (displayedPctPositive s * 10).den = 1 ∧
    (displayedPctNegative s * 10).den = 1 ∧
    (displayedPctNeutral s * 10).den = 1 := by
  refine ⟨rfl, rfl, rfl, ?_, ?_, ?_⟩ <;>
  · simp only [displayedPctPositive, displayedPctNegative, displayedPctNeutral,
      toFixed1, div_mul_cancel₀ _ (by norm_num : (10 : ℚ) ≠ 0)]
    exact Rat.den_intCast _

/-- C1 witness: at the summary `{Positive := 2, Negative := 1,
Neutral := 1, Total := 4}` the displayed percentages match the
specification formula. -/
theorem pct_display_matches_spec_witness :
    displayedPctPositive ⟨2, 1, 1, 4⟩ = specPct 2 4 ∧
    displayedPctNegative ⟨2, 1, 1, 4⟩ = specPct 1 4 ∧
    displayedPctNeutral ⟨2, 1, 1, 4⟩ = specPct 1 4 ∧
    (displayedPctPositive ⟨2, 1, 1, 4⟩ * 10).den = 1 ∧
    (displayedPctNegative ⟨2, 1, 1, 4⟩ * 10).den = 1 ∧
    (displayedPctNeutral ⟨2, 1, 1, 4⟩ * 10).den = 1 :=
  pct_display_matches_spec ⟨2, 1, 1, 4⟩ (by decide)

/-- C10: a comment longer than 100 characters is displayed as its first
100 characters followed by three dots, and a comment of at most 100
characters is displayed verbatim. -/
theorem comment_truncate_display (c : List Char) :
    (100 < c.length → displayComment c = c.take 100 ++ ['.', '.', '.']) ∧
    (c.length ≤ 100 → displayComment c = c) := by
  constructor
  · intro h
    simp [displayComment, h]
  · intro h
    simp [displayComment, Nat.not_lt.mpr h]

/-- C10 witness: a 101-character comment is truncated to its first 100
characters plus dots; a 2-character comment is shown verbatim. -/
theorem comment_truncate_display_witness :
    displayComment (List.replicate 101 'a') =
      (List.replicate 101 'a').take 100 ++ ['.', '.', '.'] ∧
    displayComment ['o', 'k'] = ['o', 'k'] :=
  ⟨(comment_truncate_display (List.replicate 101 'a')).1 (by simp),
    (comment_truncate_display ['o', 'k']).2 (by simp)⟩

/-- C4: if two distinct classes both attain the maximum score on a
feature vector, `predict` returns a class attaining that same maximum
score which precedes both tied classes in the fixed precedence order
(Positive, Negative, Neutral), i.e. the first tied maximum in that
order. -/
theorem predict_tie_break (m : Model) (vec : List Nat)
    (c d : SentimentLabel) (hcd : c ≠ d)
    (hc : ∀ e, score m vec e ≤ score m vec c)
    (hd : ∀ e, score m vec e ≤ score m vec d) :
    score m vec (predict m vec) = score m vec c ∧
    precIdx (predict m vec) ≤ precIdx c ∧
    precIdx (predict m vec) ≤ precIdx d :=
  ⟨le_antisymm (hc (predict m vec)) (predict_isMax m vec c),
    predict_precFirst m vec c hc, predict_precFirst m vec d hd⟩

/-- C4 witness: with the all-zero model every class ties at the
maximum on the empty vector, and `predict` lands on the
precedence-first class, preceding both the tied classes Positive and
Negative. -/
theorem predict_tie_break_witness :
    score mDummy [] (predict mDummy []) =
      score mDummy [] SentimentLabel.Positive ∧
    precIdx (predict mDummy []) ≤ precIdx SentimentLabel.Positive ∧
    precIdx (predict mDummy []) ≤ precIdx SentimentLabel.Negative :=
  predict_tie_break mDummy [] SentimentLabel.Positive SentimentLabel.Negative
    (by decide) (by intro e; cases e <;> simp [score, dotLik, mDummy])
    (by intro e; cases e <;> simp [score, dotLik, mDummy])

/-- C5: a text all of whose tokens are absent from the vocabulary
(including the empty text) transforms to the all-zero vector of length
`|vocabulary|`, `classify` still returns the label determined purely by
the class priors, and the Laplace-smoothed likelihood of any token in
any class is strictly positive. -/
theorem oov_prior_fallback (vocab : List (List Char)) (m : Model)
    (text : List Char) (hoov : ∀ t ∈ tokenize text, t ∉ vocab)
    (examples : List (List Nat × SentimentLabel)) (c : SentimentLabel)
    (i : Nat) (hV : 0 < vocab.length) :
    transform vocab text = List.replicate vocab.length 0 ∧
    classify vocab m text = priorArgmax m ∧
    0 < likelihood examples vocab.length c i := by
  refine ⟨transform_oov text vocab hoov, ?_, ?_⟩
  · unfold classify
    rw [transform_oov text vocab hoov]
    simp [predict, priorArgmax, labelOrder, List.foldl, score_replicate_zero]
  · unfold likelihood
    apply div_pos
    · positivity
    · have h1 : (0 : ℚ) ≤ (labelTotalTokenCount examples vocab.length c : ℚ) :=
        Nat.cast_nonneg _
      have h2 : (0 : ℚ) < (vocab.length : ℚ) := by exact_mod_cast hV
      linarith

/-- C5 witness: with vocabulary `["good"]`, the text `"xyz"` has only
out-of-vocabulary tokens, transforms to `[0]`, classifies by priors
alone, and the smoothed likelihood is positive on an empty training
set. -/
theorem oov_prior_fallback_witness :
    transform [['g', 'o', 'o', 'd']] ['x', 'y', 'z'] = List.replicate 1 0 ∧
    classify [['g', 'o', 'o', 'd']] mDummy ['x', 'y', 'z'] = priorArgmax mDummy ∧
    0 < likelihood [] 1 SentimentLabel.Positive 0 :=
  oov_prior_fallback [['g', 'o', 'o', 'd']] mDummy ['x', 'y', 'z']
    (by decide) [] SentimentLabel.Positive 0 (by decide)

/-- C8: with a star rating in the UI range 0..5, the feedback form
issues the `submitFeedback` request exactly when the rating is in 1..5
and the trimmed comment has at least 5 characters; otherwise nothing is
sent and at least one field error is recorded. -/
theorem feedback_submit_iff (u : Nat) (f : FeedbackForm)
    (hr : f.rating ≤ 5) :
    ((∃ p, handleSubmitFeedback u f = some p) ↔
      (1 ≤ f.rating ∧ f.rating ≤ 5 ∧ 5 ≤ (jsTrim f.comment).length)) ∧
    (handleSubmitFeedback u f = none →
      (validateFeedbackForm f).ratingError.isSome = true ∨
        (validateFeedbackForm f).commentError.isSome = true) := by
  by_cases h0 : f.rating = 0 <;> by_cases h1 : jsTrim f.comment = [] <;>
    by_cases h2 : (jsTrim f.comment).length < 5 <;>
    simp [handleSubmitFeedback, feedbackFormValid, validateFeedbackForm,
      h0, h1, h2] <;>
    omega

/-- C8 witness: rating 5 with the comment `"Great service"` submits the
trimmed payload; the instantiated biconditional and error clause hold. -/
theorem feedback_submit_iff_witness :
    ((∃ p, handleSubmitFeedback 1
        { rating := 5, comment := "Great service".toList } = some p) ↔
      (1 ≤ 5 ∧ 5 ≤ 5 ∧
        5 ≤ (jsTrim ("Great service".toList)).length)) ∧
    (handleSubmitFeedback 1
        { rating := 5, comment := "Great service".toList } = none →
      (validateFeedbackForm
          { rating := 5, comment := "Great service".toList }).ratingError.isSome
        = true ∨
      (validateFeedbackForm
          { rating := 5, comment := "Great service".toList }).commentError.isSome
        = true) :=
  feedback_submit_iff 1 { rating := 5, comment := "Great service".toList }
    (by decide)

/-- C9: a login or signup submission that passes client-side validation
sends exactly the entered email with surrounding whitespace trimmed and
all characters lowercased (along with the other verbatim fields). -/
theorem auth_email_normalized (lf : LoginForm) (sf : SignupForm)
    (hl : loginFormValid lf = true) (hs : signupFormValid sf = true) :
    loginSubmit lf =
      some { email := jsToLower (jsTrim lf.email), password := lf.password } ∧
    signupSubmit sf =
      some { name := jsTrim sf.name, email := jsToLower (jsTrim sf.email),
             password := sf.password } := by
  constructor
  · simp [loginSubmit, hl]
  · simp [signupSubmit, hs]

/-- C9 witness: a valid login form with email `" Alice@Example.COM "`
and a valid signup form with email `"Ann@Example.com"` both send the
trimmed, lowercased email. -/
theorem auth_email_normalized_witness :
    loginSubmit
        { email := " Alice@Example.COM ".toList, password := "pw".toList } =
      some { email := jsToLower (jsTrim (" Alice@Example.COM ".toList)),
             password := "pw".toList } ∧
    signupSubmit
        { name := "Ann".toList, email := "Ann@Example.com".toList,
          password := "secret1".toList, confirmPassword := "secret1".toList } =
      some { name := jsTrim ("Ann".toList),
             email := jsToLower (jsTrim ("Ann@Example.com".toList)),
             password := "secret1".toList } :=
  auth_email_normalized
    { email := " Alice@Example.COM ".toList, password := "pw".toList }
    { name := "Ann".toList, email := "Ann@Example.com".toList,
      password := "secret1".toList, confirmPassword := "secret1".toList }
    (by decide) (by decide)
